import Mathlib

/-!
Verification of the stress-test dashboard's core pipeline (`src/app.py`).

The embedding models, from the source:
  * `load_excel_total` (app.py lines 35-68): totals-mode ingestion over a
    workbook given as a list of sheets, each a name plus a list of raw rows;
  * the sidebar filter (app.py lines 146-150): `df_filt`;
  * the peer-analysis pipeline (app.py lines 288-320): `df_analysis`,
    `df_peers`, `df_peer_stats`, `df_plot` and the z-score column.

Conventions of the embedding:
  * a pandas NaN cell in the `Portfolio` / `Scenario` columns is `none`
    (`pd.read_excel` turns empty cells into NaN, and `.fillna` replaces
    exactly those);
  * dates are day numbers (`Nat`); line 76 of the source normalizes
    timestamps to calendar dates, so a `Fact.date` is the normalized value;
  * `Stress PnL` values are exact rationals; the floating-point special
    values that the z-score division can produce are made explicit in `ZVal`
    (`nan` for 0/0 and for division by a NaN standard deviation, `posInf` /
    `negInf` for division of a nonzero numerator by a zero standard
    deviation), and a finite z-score is carried as the pair
    `(numerator, variance)` denoting `numerator / Real.sqrt variance`;
  * the fatal `st.error` + `st.stop` path of ingestion is `none`.
-/

namespace StressApp

/-- One row of a workbook sheet, restricted to the five columns the source
selects (app.py lines 55-57). `portfolio`/`scenario` are `Option` because the
source fills NaN cells from the sheet name (lines 59-60). -/
structure RawRow where
  riskGroup : String
  stressPnl : ℚ
  date : ℕ
  portfolio : Option String
  scenario : Option String
deriving DecidableEq, Repr

/-- One sheet of the workbook: its tab name and its rows. -/
structure Sheet where
  name : String
  rows : List RawRow
deriving DecidableEq, Repr

/-- One record of the normalized fact table produced by ingestion. -/
structure Fact where
  riskGroup : String
  stressPnl : ℚ
  date : ℕ
  portfolio : String
  scenario : String
deriving DecidableEq, Repr

/-- Split a character list at the first occurrence of `sep`; `none` when
`sep` does not occur. Models Python's `"_" in sheet` test together with
`sheet.split("_", 1)` (app.py lines 44-47). -/
def splitFirst (sep : Char) : List Char → Option (List Char × List Char)
  | [] => none
  | c :: cs =>
    if c = sep then some ([], cs)
    else
      match splitFirst sep cs with
      | none => none
      | some (a, b) => some (c :: a, b)

/-- `sheet.split("_", 1)` on strings: `none` when the name has no underscore
(the sheet is skipped, app.py lines 44-45), otherwise the prefix before the
first underscore and the whole remainder after it. -/
def splitFirstUnderscore (s : String) : Option (String × String) :=
  match splitFirst '_' s.data with
  | none => none
  | some (a, b) => some (String.mk a, String.mk b)

/-- Build a fact from a kept raw row: NaN portfolio/scenario cells are filled
with the sheet-name-derived values (`fillna`, app.py lines 59-60). -/
def fillRow (p s : String) (r : RawRow) : Fact :=
  { riskGroup := r.riskGroup
    stressPnl := r.stressPnl
    date := r.date
    portfolio := r.portfolio.getD p
    scenario := r.scenario.getD s }

/-- The facts one sheet contributes in totals mode: nothing when the name has
no underscore (app.py lines 44-45); otherwise the rows whose `Risk Group` is
`"Total"` (line 51), with blank portfolio/scenario filled from the name
(lines 59-60). -/
def sheetTotalRows (sh : Sheet) : List Fact :=
  match splitFirstUnderscore sh.name with
  | none => []
  | some (p, s) => (sh.rows.filter (fun r => r.riskGroup == "Total")).map (fillRow p s)

/-- `load_excel_total` (app.py lines 35-68) on an in-memory workbook: collect
each sheet's Total rows, drop empty contributions (the `continue` on line 53),
stop fatally (`none`) when no sheet contributed (lines 64-66), otherwise
concatenate (line 68). -/
def load_excel_total (sheets : List Sheet) : Option (List Fact) :=
  let total_rows := (sheets.map sheetTotalRows).filter (fun l => !l.isEmpty)
  if total_rows.isEmpty then none else some total_rows.flatten

/-- The sidebar filter (app.py lines 146-150): rows whose date equals the
selected date and whose portfolio and scenario are members of the selected
lists. -/
def df_filt (facts : List Fact) (d : ℕ) (ports scens : List String) : List Fact :=
  facts.filter (fun f =>
    f.date == d && ports.contains f.portfolio && scens.contains f.scenario)

/-- `sorted(... .unique())` over a list of keys (app.py lines 81-82):
distinct values in ascending order. -/
def sortedUnique (l : List String) : List String :=
  List.insertionSort (· ≤ ·) l.dedup

/-- `sorted(df_total["Portfolio"].unique())` (app.py line 81). -/
def all_portfolios (facts : List Fact) : List String :=
  sortedUnique (facts.map (·.portfolio))

/-- `sorted(df_total["Scenario"].unique())` (app.py line 82). -/
def all_scenarios (facts : List Fact) : List String :=
  sortedUnique (facts.map (·.scenario))

/-- `max(available_dates)` (app.py line 79), the date the date picker starts
from; 0 on an empty table (the app has stopped before then in that case). -/
def last_date (facts : List Fact) : ℕ :=
  (facts.map (·.date)).foldr max 0

/-- `df_filt[df_filt["Portfolio"] == analysis_portfolio]` restricted to the
scenario and stress-pnl columns (app.py lines 288-290). -/
def df_analysis (facts : List Fact) (ap : String) : List Fact :=
  facts.filter (fun f => f.portfolio == ap)

/-- `df_filt[df_filt["Portfolio"].isin(peer_portfolios)]` (app.py
lines 293-295). -/
def df_peers (facts : List Fact) (peers : List String) : List Fact :=
  facts.filter (fun f => peers.contains f.portfolio)

/-- The stress-pnl values a row set carries for one scenario, in row order:
the column a pandas groupby aggregates for that group. -/
def scenarioVals (rows : List Fact) (s : String) : List ℚ :=
  (rows.filter (fun f => f.scenario == s)).map (·.stressPnl)

/-- pandas `median`: middle element of the sorted values, or the mean of the
two middle elements when the count is even. -/
def medianQ (l : List ℚ) : ℚ :=
  let s := List.insertionSort (· ≤ ·) l
  if l.length % 2 = 1 then s.getD (l.length / 2) 0
  else (s.getD (l.length / 2 - 1) 0 + s.getD (l.length / 2) 0) / 2

/-- pandas `std` squared: the sample variance (ddof = 1), `none` (NaN) when
fewer than two values are present. The standard deviation itself is
`Real.sqrt` of this value. -/
def sampleVar (l : List ℚ) : Option ℚ :=
  if l.length < 2 then none
  else
    let m : ℚ := l.sum / l.length
    some ((l.map (fun x => (x - m) ^ 2)).sum / ((l.length : ℚ) - 1))

/-- One row of `df_peer_stats` (app.py lines 298-305): a scenario with its
peer median and peer sample variance (`peer_std = Real.sqrt peer_var`;
`none` is pandas' NaN standard deviation for a single value). -/
structure PeerStat where
  scenario : String
  peer_median : ℚ
  peer_var : Option ℚ
deriving DecidableEq, Repr

/-- `df_peers.groupby("Scenario").agg(median, std)` (app.py lines 298-305):
one row per distinct scenario of the peer subset, keys sorted as pandas
groupby sorts them. -/
def df_peer_stats (facts : List Fact) (peers : List String) : List PeerStat :=
  let pr := df_peers facts peers
  (sortedUnique (pr.map (·.scenario))).map (fun s =>
    { scenario := s
      peer_median := medianQ (scenarioVals pr s)
      peer_var := sampleVar (scenarioVals pr s) })

/-- The value of the z-score column for one row: IEEE float division made
explicit. Division by a NaN standard deviation is NaN; division by a zero
standard deviation is a signed infinity for a nonzero numerator and NaN for
0/0; otherwise the finite value `num / Real.sqrt var`, carried as the exact
pair `(num, var)`. -/
inductive ZVal where
  | nan : ZVal
  | posInf : ZVal
  | negInf : ZVal
  | fin : ℚ → ℚ → ZVal
deriving DecidableEq, Repr

/-- `(value - peer_median) / peer_std` (app.py lines 315-318) where
`peer_std = Real.sqrt var` for `some var`, NaN for `none`. -/
def zDiv (num : ℚ) (var : Option ℚ) : ZVal :=
  match var with
  | none => ZVal.nan
  | some v =>
    if v = 0 then
      if num = 0 then ZVal.nan
      else if 0 < num then ZVal.posInf else ZVal.negInf
    else ZVal.fin num v

/-- One row of `df_plot` (app.py lines 308-320): an analysis fact merged with
its scenario's peer statistics, plus the z-score column. -/
structure PlotRow where
  scenario : String
  stressPnl : ℚ
  peer_median : ℚ
  peer_var : Option ℚ
  z_score : ZVal
deriving DecidableEq, Repr

/-- Merge one analysis fact with the peer-stat rows bearing its scenario
(at most one, since groupby keys are distinct) and compute the z-score
column (app.py lines 308-318). -/
def mergeRow (stats : List PeerStat) (f : Fact) : List PlotRow :=
  (stats.filter (fun st => st.scenario == f.scenario)).map (fun st =>
    { scenario := f.scenario
      stressPnl := f.stressPnl
      peer_median := st.peer_median
      peer_var := st.peer_var
      z_score := zDiv (f.stressPnl - st.peer_median) st.peer_var })

/-- `df_plot` (app.py lines 308-320): inner merge of the analysis subset with
the peer statistics on scenario, z-score column added, sorted by scenario
(line 320). -/
def df_plot (facts : List Fact) (ap : String) (peers : List String) : List PlotRow :=
  List.insertionSort (fun a b => a.scenario ≤ b.scenario)
    ((df_analysis facts ap).flatMap (mergeRow (df_peer_stats facts peers)))

/-- Example fact table: analysis portfolio `A` against peers `P1`, `P2`;
scenario `S1` has two identical peer values (zero standard deviation),
`S2` two distinct peer values, `S3` a single peer value. -/
def exC1Facts : List Fact :=
  [ ⟨"Total", 120, 1, "A", "S1"⟩, ⟨"Total", 100, 1, "P1", "S1"⟩, ⟨"Total", 100, 1, "P2", "S1"⟩,
    ⟨"Total", 120, 1, "A", "S2"⟩, ⟨"Total", 100, 1, "P1", "S2"⟩, ⟨"Total", 110, 1, "P2", "S2"⟩,
    ⟨"Total", 120, 1, "A", "S3"⟩, ⟨"Total", 100, 1, "P1", "S3"⟩ ]

/-- Example fact table of the spec's z-score example: analysis value 120,
peer values 100, 110, 130 on one scenario. -/
def exC2Facts : List Fact :=
  [ ⟨"Total", 120, 1, "A", "S1"⟩, ⟨"Total", 100, 1, "P1", "S1"⟩,
    ⟨"Total", 110, 1, "P2", "S1"⟩, ⟨"Total", 130, 1, "P3", "S1"⟩ ]

/-! Helper lemmas about sheet-name splitting and ingestion. -/

theorem splitFirst_eq_none {sep : Char} : ∀ {l : List Char}, splitFirst sep l = none ↔ sep ∉ l := by
  intro l
  induction l with
  | nil => simp [splitFirst]
  | cons c cs ih =>
    simp only [splitFirst, List.mem_cons]
    by_cases h : c = sep
    · simp [h]
    · cases hs : splitFirst sep cs with
      | none =>
        rw [hs] at ih
        have h1 : sep ∉ cs := ih.mp rfl
        have h2 : ¬ sep = c := fun e => h e.symm
        simp [h, h1, h2]
      | some p =>
        rw [hs] at ih
        have : sep ∈ cs := by
          by_contra hm
          exact absurd (ih.mpr hm) (by simp)
        simp [h, this]

theorem splitFirst_append {sep : Char} : ∀ (a b : List Char), sep ∉ a →
    splitFirst sep (a ++ sep :: b) = some (a, b) := by
  intro a b h
  induction a with
  | nil => simp [splitFirst]
  | cons c cs ih =>
    have hc : ¬ c = sep := fun e => h (e ▸ List.mem_cons_self c cs)
    have hcs : sep ∉ cs := fun hm => h (List.mem_cons_of_mem _ hm)
    simp [splitFirst, hc, ih hcs]

theorem splitFirstUnderscore_eq_none {s : String} :
    splitFirstUnderscore s = none ↔ '_' ∉ s.data := by
  unfold splitFirstUnderscore
  cases hs : splitFirst '_' s.data with
  | none => simpa using splitFirst_eq_none.mp hs
  | some p =>
    have : '_' ∈ s.data := by
      by_contra hm
      exact absurd (splitFirst_eq_none.mpr hm) (by simp [hs])
    simp [this]

theorem splitFirstUnderscore_append (A B : String) (h : '_' ∉ A.data) :
    splitFirstUnderscore (A ++ "_" ++ B) = some (A, B) := by
  obtain ⟨la⟩ := A
  obtain ⟨lb⟩ := B
  have hdata : (String.mk la ++ "_" ++ String.mk lb).data = la ++ '_' :: lb := by
    simp [String.data_append]
  unfold splitFirstUnderscore
  rw [hdata, splitFirst_append la lb h]

theorem riskGroup_of_mem_sheetTotalRows {sh : Sheet} {f : Fact}
    (hf : f ∈ sheetTotalRows sh) : f.riskGroup = "Total" := by
  unfold sheetTotalRows at hf
  cases hsp : splitFirstUnderscore sh.name with
  | none => rw [hsp] at hf; simp at hf
  | some p =>
    rw [hsp] at hf
    obtain ⟨r, hr, rfl⟩ := List.mem_map.mp hf
    have := (List.mem_filter.mp hr).2
    simpa [fillRow] using this

theorem sheetTotalRows_eq_nil_iff {sh : Sheet} :
    sheetTotalRows sh = [] ↔
      (splitFirstUnderscore sh.name ≠ none → ∀ r ∈ sh.rows, r.riskGroup ≠ "Total") := by
  unfold sheetTotalRows
  cases hsp : splitFirstUnderscore sh.name with
  | none => simp
  | some p =>
    simp only [ne_eq, reduceCtorEq, not_false_eq_true, forall_const, List.map_eq_nil_iff,
      List.filter_eq_nil_iff]
    constructor
    · intro h r hr
      have := h r hr
      simpa using this
    · intro h r hr
      simpa using h r hr

/-- The list of per-sheet contributions that `load_excel_total` keeps
(`total_rows` in the source). -/
theorem load_excel_total_eq (sheets : List Sheet) :
    load_excel_total sheets =
      (if ((sheets.map sheetTotalRows).filter (fun l => !l.isEmpty)).isEmpty then none
       else some ((sheets.map sheetTotalRows).filter (fun l => !l.isEmpty)).flatten) := rfl

theorem load_excel_total_eq_none_iff (sheets : List Sheet) :
    load_excel_total sheets = none ↔ ∀ sh ∈ sheets, sheetTotalRows sh = [] := by
  rw [load_excel_total_eq]
  split <;> rename_i hemp
  · simp only [List.isEmpty_iff, List.filter_eq_nil_iff, List.mem_map] at hemp
    simp only [true_iff]
    intro sh hsh
    have := hemp (sheetTotalRows sh) ⟨sh, hsh, rfl⟩
    simpa using this
  · simp only [List.isEmpty_iff, List.filter_eq_nil_iff, List.mem_map] at hemp
    constructor
    · intro h; exact absurd h (by simp)
    · intro h
      exact absurd (fun l hl => by
        obtain ⟨sh, hsh, rfl⟩ := hl
        simp [h sh hsh]) hemp

/-- C3: every row of a successfully loaded totals-mode fact table has
risk group `"Total"`, and ingestion fails fatally exactly when no parseable
sheet (name containing an underscore) carries any `"Total"` row. -/
theorem C3_totals_only_and_fatal_iff (sheets : List Sheet) :
    (∀ facts, load_excel_total sheets = some facts →
      ∀ f ∈ facts, f.riskGroup = "Total") ∧
    (load_excel_total sheets = none ↔
      ∀ sh ∈ sheets, splitFirstUnderscore sh.name ≠ none →
        ∀ r ∈ sh.rows, r.riskGroup ≠ "Total") := by
  constructor
  · intro facts hload f hf
    rw [load_excel_total_eq] at hload
    split at hload
    · exact absurd hload (by simp)
    · obtain rfl : _ = facts := Option.some.inj hload
      obtain ⟨l, hl, hfl⟩ := List.mem_flatten.mp hf
      obtain ⟨sh, _, rfl⟩ := List.mem_map.mp (List.mem_filter.mp hl).1
      exact riskGroup_of_mem_sheetTotalRows hfl
  · rw [load_excel_total_eq_none_iff]
    constructor
    · intro h sh hsh
      exact sheetTotalRows_eq_nil_iff.mp (h sh hsh)
    · intro h sh hsh
      exact sheetTotalRows_eq_nil_iff.mpr (h sh hsh)

/-- C3 witness: a two-sheet workbook where only the first sheet parses and
carries a Total row loads successfully, and its row has risk group Total. -/
theorem C3_totals_only_and_fatal_iff_witness :
    load_excel_total
        [⟨"F1_B", [⟨"Total", 5, 1, none, none⟩, ⟨"EQ", 7, 1, none, none⟩]⟩,
         ⟨"F2_B", []⟩] =
      some [⟨"Total", 5, 1, "F1", "B"⟩] ∧
    (Fact.mk "Total" 5 1 "F1" "B").riskGroup = "Total" :=
  ⟨by decide,
   (C3_totals_only_and_fatal_iff
      [⟨"F1_B", [⟨"Total", 5, 1, none, none⟩, ⟨"EQ", 7, 1, none, none⟩]⟩,
       ⟨"F2_B", []⟩]).1
     [⟨"Total", 5, 1, "F1", "B"⟩] (by decide) _ (by decide)⟩

/-- C4: in totals mode, every fact of a kept sheet comes from a Total row of
that sheet, its portfolio (resp. scenario) being the row's explicit column
value when that value is present and the sheet-name-derived value only as
fallback; conversely every Total row of the sheet contributes exactly such a
fact. -/
theorem C4_column_wins_sheet_fallback (sh : Sheet) (p s : String)
    (hsp : splitFirstUnderscore sh.name = some (p, s)) :
    (∀ f ∈ sheetTotalRows sh, ∃ r ∈ sh.rows, r.riskGroup = "Total" ∧
      f.portfolio = (match r.portfolio with | some v => v | none => p) ∧
      f.scenario = (match r.scenario with | some v => v | none => s) ∧
      f.stressPnl = r.stressPnl ∧ f.date = r.date) ∧
    (∀ r ∈ sh.rows, r.riskGroup = "Total" → fillRow p s r ∈ sheetTotalRows sh) := by
  constructor
  · intro f hf
    unfold sheetTotalRows at hf
    rw [hsp] at hf
    obtain ⟨r, hr, rfl⟩ := List.mem_map.mp hf
    refine ⟨r, (List.mem_filter.mp hr).1, by simpa using (List.mem_filter.mp hr).2, ?_, ?_, rfl, rfl⟩
    · cases hpo : r.portfolio <;> simp [fillRow, hpo]
    · cases hsc : r.scenario <;> simp [fillRow, hsc]
  · intro r hr hTot
    unfold sheetTotalRows
    rw [hsp]
    exact List.mem_map_of_mem _ (List.mem_filter.mpr ⟨hr, by simp [hTot]⟩)

/-- C4 witness: on a concrete sheet, a row with an explicit portfolio keeps
it, and a row with blank columns falls back to the sheet name. -/
theorem C4_column_wins_sheet_fallback_witness :
    splitFirstUnderscore "F1_B" = some ("F1", "B") ∧
    ∃ r ∈ (Sheet.mk "F1_B" [⟨"Total", 5, 1, some "OVR", none⟩]).rows,
      r.riskGroup = "Total" ∧
      (Fact.mk "Total" 5 1 "OVR" "B").portfolio
        = (match r.portfolio with | some v => v | none => "F1") ∧
      (Fact.mk "Total" 5 1 "OVR" "B").scenario
        = (match r.scenario with | some v => v | none => "B") ∧
      (Fact.mk "Total" 5 1 "OVR" "B").stressPnl = r.stressPnl ∧
      (Fact.mk "Total" 5 1 "OVR" "B").date = r.date :=
  ⟨by decide,
   (C4_column_wins_sheet_fallback (Sheet.mk "F1_B" [⟨"Total", 5, 1, some "OVR", none⟩])
      "F1" "B" (by decide)).1 ⟨"Total", 5, 1, "OVR", "B"⟩ (by decide)⟩

/-- C7: a sheet named `A ++ "_" ++ B` with no underscore in `A` and no
explicit overrides in its rows yields facts whose portfolio is `A` (the
prefix before the first underscore) and whose scenario is the entire
remainder `B`. -/
theorem C7_sheet_name_parsing (A B : String) (sh : Sheet)
    (hname : sh.name = A ++ "_" ++ B) (hA : '_' ∉ A.data)
    (hover : ∀ r ∈ sh.rows, r.portfolio = none ∧ r.scenario = none) :
    ∀ f ∈ sheetTotalRows sh, f.portfolio = A ∧ f.scenario = B := by
  intro f hf
  unfold sheetTotalRows at hf
  rw [hname, splitFirstUnderscore_append A B hA] at hf
  obtain ⟨r, hr, rfl⟩ := List.mem_map.mp hf
  obtain ⟨hp, hs⟩ := hover r (List.mem_filter.mp hr).1
  simp [fillRow, hp, hs]

/-- C7 witness: the sheet `"FUND1_SEV_2020"` assigns portfolio `"FUND1"` and
scenario `"SEV_2020"` (the underscore inside the scenario is kept). -/
theorem C7_sheet_name_parsing_witness :
    ("FUND1_SEV_2020" : String) = "FUND1" ++ "_" ++ "SEV_2020" ∧
    '_' ∉ ("FUND1" : String).data ∧
    (Fact.mk "Total" 5 1 "FUND1" "SEV_2020").portfolio = "FUND1" ∧
    (Fact.mk "Total" 5 1 "FUND1" "SEV_2020").scenario = "SEV_2020" :=
  ⟨by decide, by decide,
   C7_sheet_name_parsing "FUND1" "SEV_2020"
     (Sheet.mk "FUND1_SEV_2020" [⟨"Total", 5, 1, none, none⟩])
     (by decide) (by decide) (by decide)
     ⟨"Total", 5, 1, "FUND1", "SEV_2020"⟩ (by decide)⟩

/-- C8: a sheet whose name contains no underscore contributes nothing:
inserting it anywhere in a workbook leaves the result of `load_excel_total`
unchanged, whether that result is the fact table or the fatal error. -/
theorem C8_no_underscore_sheet_inert (pre post : List Sheet) (sh : Sheet)
    (h : '_' ∉ sh.name.data) :
    load_excel_total (pre ++ sh :: post) = load_excel_total (pre ++ post) := by
  have hnil : sheetTotalRows sh = [] := by
    unfold sheetTotalRows
    rw [splitFirstUnderscore_eq_none.mpr h]
  rw [load_excel_total_eq, load_excel_total_eq]
  simp [hnil]

/-- C8 witness: adding the sheet `"summary"` (no underscore, though it even
carries a Total row) to a one-sheet workbook leaves the loaded fact table
unchanged. -/
theorem C8_no_underscore_sheet_inert_witness :
    '_' ∉ ("summary" : String).data ∧
    load_excel_total
        [⟨"F1_B", [⟨"Total", 5, 1, none, none⟩]⟩,
         ⟨"summary", [⟨"Total", 9, 1, none, none⟩]⟩] =
      load_excel_total [⟨"F1_B", [⟨"Total", 5, 1, none, none⟩]⟩] :=
  ⟨by decide,
   C8_no_underscore_sheet_inert [⟨"F1_B", [⟨"Total", 5, 1, none, none⟩]⟩] []
     ⟨"summary", [⟨"Total", 9, 1, none, none⟩]⟩ (by decide)⟩

/-! Helper lemmas about the filter and the distinct-value lists. -/

theorem mem_sortedUnique {a : String} {l : List String} :
    a ∈ sortedUnique l ↔ a ∈ l := by
  unfold sortedUnique
  rw [List.mem_insertionSort, List.mem_dedup]

theorem nodup_sortedUnique (l : List String) : (sortedUnique l).Nodup :=
  ((List.perm_insertionSort _ _).nodup_iff).mpr (List.nodup_dedup l)

theorem contains_iff_mem {l : List String} {a : String} : l.contains a = true ↔ a ∈ l := by
  induction l with
  | nil => simp
  | cons x xs ih => simp [List.contains_cons, ih]

theorem contains_all_portfolios {facts : List Fact} {f : Fact} (hf : f ∈ facts) :
    (all_portfolios facts).contains f.portfolio = true := by
  rw [List.contains_iff_exists_mem_beq]
  exact ⟨f.portfolio, mem_sortedUnique.mpr (List.mem_map_of_mem _ hf), by simp⟩

theorem contains_all_scenarios {facts : List Fact} {f : Fact} (hf : f ∈ facts) :
    (all_scenarios facts).contains f.scenario = true := by
  rw [List.contains_iff_exists_mem_beq]
  exact ⟨f.scenario, mem_sortedUnique.mpr (List.mem_map_of_mem _ hf), by simp⟩

/-- C5 counterexample: a fact table with two distinct dates. Whatever single
date the date picker holds — including the app's default, the most recent
date — selecting every portfolio and every scenario does not return the
whole table, because the filter always pins `Date` to one value. -/
theorem C5_select_all_counterexample :
    Multiset.ofList
        (df_filt [⟨"Total", 10, 1, "P1", "S1"⟩, ⟨"Total", 20, 2, "P1", "S1"⟩]
          (last_date [⟨"Total", 10, 1, "P1", "S1"⟩, ⟨"Total", 20, 2, "P1", "S1"⟩])
          (all_portfolios [⟨"Total", 10, 1, "P1", "S1"⟩, ⟨"Total", 20, 2, "P1", "S1"⟩])
          (all_scenarios [⟨"Total", 10, 1, "P1", "S1"⟩, ⟨"Total", 20, 2, "P1", "S1"⟩]))
      ≠ Multiset.ofList [⟨"Total", 10, 1, "P1", "S1"⟩, ⟨"Total", 20, 2, "P1", "S1"⟩] ∧
    Multiset.ofList
        (df_filt [⟨"Total", 10, 1, "P1", "S1"⟩, ⟨"Total", 20, 2, "P1", "S1"⟩] 1
          (all_portfolios [⟨"Total", 10, 1, "P1", "S1"⟩, ⟨"Total", 20, 2, "P1", "S1"⟩])
          (all_scenarios [⟨"Total", 10, 1, "P1", "S1"⟩, ⟨"Total", 20, 2, "P1", "S1"⟩]))
      ≠ Multiset.ofList [⟨"Total", 10, 1, "P1", "S1"⟩, ⟨"Total", 20, 2, "P1", "S1"⟩] := by
  constructor <;> decide

/-- C5 amended: the date dimension of the app's filter is a single selected
date, not a set, so "select all" over portfolios and scenarios restricts the
table exactly to the rows bearing the selected date; this is the whole table
precisely when every row has that date. -/
theorem C5_select_all_amended (facts : List Fact) (d : ℕ) :
    df_filt facts d (all_portfolios facts) (all_scenarios facts) =
      facts.filter (fun f => f.date == d) := by
  unfold df_filt
  apply List.filter_congr
  intro f hf
  rw [contains_all_portfolios hf, contains_all_scenarios hf]
  simp

/-- C6: the filter returns exactly the fact records whose date lies in the
singleton selection `[d]` (the date picker supplies one date) and whose
portfolio and scenario are members of the supplied selection lists; an empty
portfolio or scenario selection yields the empty table (the filter is a
total function, so no error is possible). -/
theorem C6_filter_membership (facts : List Fact) (d : ℕ)
    (ports scens : List String) (f : Fact) :
    (f ∈ df_filt facts d ports scens ↔
      f ∈ facts ∧ f.date ∈ [d] ∧ f.portfolio ∈ ports ∧ f.scenario ∈ scens) ∧
    (ports = [] → df_filt facts d ports scens = []) ∧
    (scens = [] → df_filt facts d ports scens = []) := by
  refine ⟨?_, ?_, ?_⟩
  · unfold df_filt
    rw [List.mem_filter]
    simp only [Bool.and_eq_true, beq_iff_eq, contains_iff_mem, List.mem_singleton]
    tauto
  · intro h
    subst h
    simp [df_filt]
  · intro h
    subst h
    simp [df_filt]

/-- C6 witness: on a concrete two-row table, the membership reading holds for
a concrete row and an empty scenario selection empties the output. -/
theorem C6_filter_membership_witness :
    ((Fact.mk "Total" 10 1 "P1" "S1") ∈
        df_filt [⟨"Total", 10, 1, "P1", "S1"⟩, ⟨"Total", 20, 2, "P2", "S2"⟩] 1 ["P1"] ["S1"] ↔
      (Fact.mk "Total" 10 1 "P1" "S1") ∈
          [(Fact.mk "Total" 10 1 "P1" "S1"), ⟨"Total", 20, 2, "P2", "S2"⟩] ∧
        (Fact.mk "Total" 10 1 "P1" "S1").date ∈ [1] ∧
        (Fact.mk "Total" 10 1 "P1" "S1").portfolio ∈ ["P1"] ∧
        (Fact.mk "Total" 10 1 "P1" "S1").scenario ∈ ["S1"]) ∧
    df_filt [⟨"Total", 10, 1, "P1", "S1"⟩, ⟨"Total", 20, 2, "P2", "S2"⟩] 1 ["P1"] [] = [] :=
  ⟨(C6_filter_membership [⟨"Total", 10, 1, "P1", "S1"⟩, ⟨"Total", 20, 2, "P2", "S2"⟩]
      1 ["P1"] ["S1"] ⟨"Total", 10, 1, "P1", "S1"⟩).1,
   (C6_filter_membership [⟨"Total", 10, 1, "P1", "S1"⟩, ⟨"Total", 20, 2, "P2", "S2"⟩]
      1 ["P1"] [] ⟨"Total", 10, 1, "P1", "S1"⟩).2.2 rfl⟩

/-! Helper lemmas about the peer-analysis pipeline. -/

theorem mem_mergeRow {stats : List PeerStat} {f : Fact} {row : PlotRow} :
    row ∈ mergeRow stats f ↔ ∃ st ∈ stats, st.scenario = f.scenario ∧
      row = { scenario := f.scenario, stressPnl := f.stressPnl,
              peer_median := st.peer_median, peer_var := st.peer_var,
              z_score := zDiv (f.stressPnl - st.peer_median) st.peer_var } := by
  unfold mergeRow
  constructor
  · intro h
    obtain ⟨st, hst, rfl⟩ := List.mem_map.mp h
    exact ⟨st, (List.mem_filter.mp hst).1, by simpa using (List.mem_filter.mp hst).2, rfl⟩
  · rintro ⟨st, hst, hsc, rfl⟩
    exact List.mem_map_of_mem _ (List.mem_filter.mpr ⟨hst, by simp [hsc]⟩)

theorem mem_df_plot {facts : List Fact} {ap : String} {peers : List String} {row : PlotRow} :
    row ∈ df_plot facts ap peers ↔
      ∃ f ∈ df_analysis facts ap, ∃ st ∈ df_peer_stats facts peers,
        st.scenario = f.scenario ∧
        row = { scenario := f.scenario, stressPnl := f.stressPnl,
                peer_median := st.peer_median, peer_var := st.peer_var,
                z_score := zDiv (f.stressPnl - st.peer_median) st.peer_var } := by
  unfold df_plot
  rw [List.mem_insertionSort, List.mem_flatMap]
  constructor
  · rintro ⟨f, hf, hrow⟩
    obtain ⟨st, hst, hsc, rfl⟩ := mem_mergeRow.mp hrow
    exact ⟨f, hf, st, hst, hsc, rfl⟩
  · rintro ⟨f, hf, st, hst, hsc, rfl⟩
    exact ⟨f, hf, mem_mergeRow.mpr ⟨st, hst, hsc, rfl⟩⟩

theorem df_peer_stats_fields {facts : List Fact} {peers : List String} {st : PeerStat}
    (h : st ∈ df_peer_stats facts peers) :
    st.peer_median = medianQ (scenarioVals (df_peers facts peers) st.scenario) ∧
    st.peer_var = sampleVar (scenarioVals (df_peers facts peers) st.scenario) := by
  unfold df_peer_stats at h
  obtain ⟨k, _, rfl⟩ := List.mem_map.mp h
  exact ⟨rfl, rfl⟩

theorem scenario_mem_df_peer_stats {facts : List Fact} {peers : List String} {s : String} :
    (∃ st ∈ df_peer_stats facts peers, st.scenario = s) ↔
      ∃ g ∈ df_peers facts peers, g.scenario = s := by
  unfold df_peer_stats
  constructor
  · rintro ⟨st, hst, hs⟩
    obtain ⟨k, hk, rfl⟩ := List.mem_map.mp hst
    obtain ⟨g, hg, hgs⟩ := List.mem_map.mp (mem_sortedUnique.mp hk)
    exact ⟨g, hg, by rw [hgs]; exact hs⟩
  · rintro ⟨g, hg, rfl⟩
    refine ⟨_, List.mem_map_of_mem _ (mem_sortedUnique.mpr (List.mem_map_of_mem _ hg)), rfl⟩

theorem mem_df_peers {facts : List Fact} {peers : List String} {g : Fact} :
    g ∈ df_peers facts peers ↔ g ∈ facts ∧ g.portfolio ∈ peers := by
  unfold df_peers
  rw [List.mem_filter, contains_iff_mem]

theorem mem_df_analysis {facts : List Fact} {ap : String} {f : Fact} :
    f ∈ df_analysis facts ap ↔ f ∈ facts ∧ f.portfolio = ap := by
  unfold df_analysis
  rw [List.mem_filter]
  simp

theorem filter_beq_of_nodup {l : List String} {s : String}
    (hnd : l.Nodup) (hm : s ∈ l) : l.filter (fun k => k == s) = [s] := by
  induction l with
  | nil => cases hm
  | cons x xs ih =>
    rcases List.mem_cons.mp hm with rfl | hm2
    · have hx : s ∉ xs := (List.nodup_cons.mp hnd).1
      have hnil : xs.filter (fun k => k == s) = [] :=
        List.filter_eq_nil_iff.mpr (fun a ha => by
          simp only [beq_iff_eq]
          rintro rfl
          exact hx ha)
      simp only [List.filter_cons, beq_self_eq_true, if_true, hnil]
    · have hx : (x == s) = false := by
        simp only [beq_eq_false_iff_ne, ne_eq]
        rintro rfl
        exact (List.nodup_cons.mp hnd).1 hm2
      simp only [List.filter_cons, hx, Bool.false_eq_true, if_false]
      exact ih (List.nodup_cons.mp hnd).2 hm2

theorem df_peer_stats_filter_eq {facts : List Fact} {peers : List String} {s : String}
    (h : ∃ g ∈ df_peers facts peers, g.scenario = s) :
    (df_peer_stats facts peers).filter (fun st => st.scenario == s) =
      [⟨s, medianQ (scenarioVals (df_peers facts peers) s),
          sampleVar (scenarioVals (df_peers facts peers) s)⟩] := by
  obtain ⟨g, hg, rfl⟩ := h
  unfold df_peer_stats
  rw [List.filter_map]
  have hmem : g.scenario ∈ sortedUnique ((df_peers facts peers).map (·.scenario)) :=
    mem_sortedUnique.mpr (List.mem_map_of_mem _ hg)
  have hnd := nodup_sortedUnique ((df_peers facts peers).map (·.scenario))
  have hpred : ∀ k, ((fun st : PeerStat => st.scenario == g.scenario) ∘
      (fun s => PeerStat.mk s (medianQ (scenarioVals (df_peers facts peers) s))
        (sampleVar (scenarioVals (df_peers facts peers) s)))) k
      = (fun k => k == g.scenario) k := fun _ => rfl
  rw [List.filter_congr (fun k _ => hpred k), filter_beq_of_nodup hnd hmem]
  rfl

/-- C9: the peer-analysis output contains a row for scenario `s` exactly when
both the analysis portfolio and at least one peer portfolio carry a fact for
`s` in the filtered table (inner join on scenario). -/
theorem C9_inner_join_scenarios (facts : List Fact) (ap : String)
    (peers : List String) (s : String) :
    (∃ row ∈ df_plot facts ap peers, row.scenario = s) ↔
      ((∃ f ∈ facts, f.portfolio = ap ∧ f.scenario = s) ∧
       (∃ g ∈ facts, g.portfolio ∈ peers ∧ g.scenario = s)) := by
  constructor
  · rintro ⟨row, hrow, rfl⟩
    obtain ⟨f, hf, st, hst, hsc, rfl⟩ := mem_df_plot.mp hrow
    obtain ⟨hfm, hfp⟩ := mem_df_analysis.mp hf
    refine ⟨⟨f, hfm, hfp, rfl⟩, ?_⟩
    obtain ⟨g, hg, hgs⟩ := scenario_mem_df_peer_stats.mp ⟨st, hst, hsc⟩
    obtain ⟨hgm, hgp⟩ := mem_df_peers.mp hg
    exact ⟨g, hgm, hgp, hgs⟩
  · rintro ⟨⟨f, hfm, hfp, hfs⟩, ⟨g, hgm, hgp, hgs⟩⟩
    obtain ⟨st, hst, hsts⟩ := scenario_mem_df_peer_stats.mpr
      ⟨g, mem_df_peers.mpr ⟨hgm, hgp⟩, hgs⟩
    refine ⟨_, mem_df_plot.mpr
      ⟨f, mem_df_analysis.mpr ⟨hfm, hfp⟩, st, hst, by rw [hsts, hfs], rfl⟩, hfs⟩

/-- C10: when the analysis portfolio carries more than one fact row for a
scenario also covered by some peer, the peer-analysis output carries one row
per analysis fact for that scenario — each with that fact's stress-pnl value,
the identical peer median and variance, and the corresponding z-score —
rather than failing or collapsing them. -/
theorem C10_multi_row_analysis (facts : List Fact) (ap : String)
    (peers : List String) (s : String)
    (_hk : 1 < (scenarioVals (df_analysis facts ap) s).length)
    (hp : ∃ g ∈ facts, g.portfolio ∈ peers ∧ g.scenario = s) :
    Multiset.ofList ((df_plot facts ap peers).filter (fun r => r.scenario == s)) =
      Multiset.ofList ((scenarioVals (df_analysis facts ap) s).map (fun v =>
        { scenario := s, stressPnl := v,
          peer_median := medianQ (scenarioVals (df_peers facts peers) s),
          peer_var := sampleVar (scenarioVals (df_peers facts peers) s),
          z_score := zDiv (v - medianQ (scenarioVals (df_peers facts peers) s))
            (sampleVar (scenarioVals (df_peers facts peers) s)) })) := by
  obtain ⟨g, hgm, hgp, hgs⟩ := hp
  have hpeer : ∃ g ∈ df_peers facts peers, g.scenario = s :=
    ⟨g, mem_df_peers.mpr ⟨hgm, hgp⟩, hgs⟩
  have hstats := df_peer_stats_filter_eq hpeer
  set stats := df_peer_stats facts peers with hstatsdef
  set m := medianQ (scenarioVals (df_peers facts peers) s)
  set var := sampleVar (scenarioVals (df_peers facts peers) s)
  have hperm : ((df_plot facts ap peers).filter (fun r => r.scenario == s)).Perm
      (((df_analysis facts ap).flatMap (mergeRow stats)).filter (fun r => r.scenario == s)) :=
    List.Perm.filter _ (List.perm_insertionSort _ _)
  rw [Multiset.coe_eq_coe.mpr hperm]
  have key : ∀ l : List Fact,
      (l.flatMap (mergeRow stats)).filter (fun r => r.scenario == s) =
      (l.filter (fun f => f.scenario == s)).map (fun f =>
        { scenario := s, stressPnl := f.stressPnl, peer_median := m,
          peer_var := var, z_score := zDiv (f.stressPnl - m) var }) := by
    intro l
    induction l with
    | nil => simp
    | cons f fs ih =>
      rw [List.flatMap_cons, List.filter_append, ih, List.filter_cons]
      by_cases hfs : f.scenario = s
      · have hcond : (f.scenario == s) = true := by simp [hfs]
        rw [hcond]
        simp only [if_true]
        rw [List.map_cons]
        unfold mergeRow
        rw [hfs, hstats]
        simp [hfs]
      · have hcond : (f.scenario == s) = false := by simp [hfs]
        rw [hcond]
        simp only [Bool.false_eq_true, if_false]
        have hnil : (mergeRow stats f).filter (fun r => r.scenario == s) = [] :=
          List.filter_eq_nil_iff.mpr (fun r hr => by
            obtain ⟨st, _, _, rfl⟩ := mem_mergeRow.mp hr
            simpa using hfs)
        rw [hnil, List.nil_append]
  rw [key]
  have hvals : scenarioVals (df_analysis facts ap) s =
      ((df_analysis facts ap).filter (fun f => f.scenario == s)).map (·.stressPnl) := rfl
  rw [hvals, List.map_map]
  rfl

/-- C10 witness: an analysis portfolio with two fact rows for scenario `S1`
produces two output rows for `S1`, one per analysis value, with shared peer
statistics. -/
theorem C10_multi_row_analysis_witness :
    1 < (scenarioVals
          (df_analysis
            [⟨"Total", 100, 1, "A", "S1"⟩, ⟨"Total", 120, 1, "A", "S1"⟩,
             ⟨"Total", 90, 1, "P1", "S1"⟩, ⟨"Total", 110, 1, "P2", "S1"⟩] "A") "S1").length ∧
    (∃ g ∈ [(Fact.mk "Total" 100 1 "A" "S1"), ⟨"Total", 120, 1, "A", "S1"⟩,
             ⟨"Total", 90, 1, "P1", "S1"⟩, ⟨"Total", 110, 1, "P2", "S1"⟩],
        g.portfolio ∈ ["P1", "P2"] ∧ g.scenario = "S1") ∧
    Multiset.ofList
        ((df_plot
            [⟨"Total", 100, 1, "A", "S1"⟩, ⟨"Total", 120, 1, "A", "S1"⟩,
             ⟨"Total", 90, 1, "P1", "S1"⟩, ⟨"Total", 110, 1, "P2", "S1"⟩]
            "A" ["P1", "P2"]).filter (fun r => r.scenario == "S1")) =
      Multiset.ofList
        ((scenarioVals
            (df_analysis
              [⟨"Total", 100, 1, "A", "S1"⟩, ⟨"Total", 120, 1, "A", "S1"⟩,
               ⟨"Total", 90, 1, "P1", "S1"⟩, ⟨"Total", 110, 1, "P2", "S1"⟩] "A") "S1").map
          (fun v =>
            { scenario := "S1", stressPnl := v,
              peer_median := medianQ (scenarioVals
                (df_peers
                  [⟨"Total", 100, 1, "A", "S1"⟩, ⟨"Total", 120, 1, "A", "S1"⟩,
                   ⟨"Total", 90, 1, "P1", "S1"⟩, ⟨"Total", 110, 1, "P2", "S1"⟩]
                  ["P1", "P2"]) "S1"),
              peer_var := sampleVar (scenarioVals
                (df_peers
                  [⟨"Total", 100, 1, "A", "S1"⟩, ⟨"Total", 120, 1, "A", "S1"⟩,
                   ⟨"Total", 90, 1, "P1", "S1"⟩, ⟨"Total", 110, 1, "P2", "S1"⟩]
                  ["P1", "P2"]) "S1"),
              z_score := zDiv (v - medianQ (scenarioVals
                  (df_peers
                    [⟨"Total", 100, 1, "A", "S1"⟩, ⟨"Total", 120, 1, "A", "S1"⟩,
                     ⟨"Total", 90, 1, "P1", "S1"⟩, ⟨"Total", 110, 1, "P2", "S1"⟩]
                    ["P1", "P2"]) "S1"))
                (sampleVar (scenarioVals
                  (df_peers
                    [⟨"Total", 100, 1, "A", "S1"⟩, ⟨"Total", 120, 1, "A", "S1"⟩,
                     ⟨"Total", 90, 1, "P1", "S1"⟩, ⟨"Total", 110, 1, "P2", "S1"⟩]
                    ["P1", "P2"]) "S1")) })) :=
  ⟨by decide, by decide,
   C10_multi_row_analysis
     [⟨"Total", 100, 1, "A", "S1"⟩, ⟨"Total", 120, 1, "A", "S1"⟩,
      ⟨"Total", 90, 1, "P1", "S1"⟩, ⟨"Total", 110, 1, "P2", "S1"⟩]
     "A" ["P1", "P2"] "S1" (by decide) (by decide)⟩

/-- C1: full evaluation of the peer-analysis pipeline on `exC1Facts`. It
shows (a) the divergence: for scenario `S1` the peer standard deviation is 0
(`peer_var = some 0`) and the code divides by it, producing an infinite
z-score instead of the missing value the claim mandates; (b) with a single
peer value (`S3`) the standard deviation is NaN and the z-score is NaN, as
claimed; (c) the defective scenario suppresses nothing: `S2`, in the same
run, still gets its finite z-score. -/
theorem C1_zero_std_divergence :
    df_plot exC1Facts "A" ["P1", "P2"] =
      [ ⟨"S1", 120, 100, some 0, ZVal.posInf⟩,
        ⟨"S2", 120, 105, some 50, ZVal.fin 15 50⟩,
        ⟨"S3", 120, 100, none, ZVal.nan⟩ ] := by
  with_unfolding_all decide

set_option maxRecDepth 200000 in
/-- C2: every peer-analysis output row carries the median and the sample
variance of the peer values of its scenario and the z-score computed from
them; on the spec's example (analysis 120, peers 100, 110, 130) the peer
median is 110, the variance is 700/3 — so the standard deviation
`Real.sqrt (700/3)` is 15.28 up to 1/100 — and the z-score
`10 / Real.sqrt (700/3)` is 0.654 up to 1/1000. -/
theorem C2_peer_stats_formula_and_example :
    (∀ (facts : List Fact) (ap : String) (peers : List String),
      ∀ row ∈ df_plot facts ap peers,
        row.peer_median = medianQ (scenarioVals (df_peers facts peers) row.scenario) ∧
        row.peer_var = sampleVar (scenarioVals (df_peers facts peers) row.scenario) ∧
        row.z_score = zDiv (row.stressPnl - row.peer_median) row.peer_var) ∧
    df_plot exC2Facts "A" ["P1", "P2", "P3"] =
      [⟨"S1", 120, 110, some (700/3), ZVal.fin 10 (700/3)⟩] ∧
    |Real.sqrt (700/3) - 15.28| < 1/100 ∧
    |10 / Real.sqrt (700/3) - 0.654| < 1/1000 := by
  have hlo : (15.27:ℝ) < Real.sqrt (700/3) :=
    (Real.lt_sqrt (by norm_num)).mpr (by norm_num)
  have hhi : Real.sqrt (700/3) < 15.29 :=
    (Real.sqrt_lt' (by norm_num)).mpr (by norm_num)
  have hspos : (0:ℝ) < Real.sqrt (700/3) := lt_trans (by norm_num) hlo
  refine ⟨?_, ?_, ?_, ?_⟩
  · intro facts ap peers row hrow
    obtain ⟨f, _, st, hst, hsc, rfl⟩ := mem_df_plot.mp hrow
    obtain ⟨hm, hv⟩ := df_peer_stats_fields hst
    rw [hsc] at hm hv
    exact ⟨hm, hv, rfl⟩
  · with_unfolding_all decide
  · rw [abs_sub_lt_iff]
    constructor <;> linarith
  · have hzlo : (10:ℝ)/15.29 < 10 / Real.sqrt (700/3) :=
      div_lt_div_of_pos_left (by norm_num) hspos hhi
    have hzhi : 10 / Real.sqrt (700/3) < (10:ℝ)/15.27 :=
      div_lt_div_of_pos_left (by norm_num) (by norm_num) hlo
    rw [abs_sub_lt_iff]
    constructor <;> [linarith; linarith]

set_option maxRecDepth 200000 in
/-- C2 witness: the general formula part of the theorem, applied to the
single output row of the spec's example. -/
theorem C2_peer_stats_formula_and_example_witness :
    (PlotRow.mk "S1" 120 110 (some (700/3)) (ZVal.fin 10 (700/3)))
        ∈ df_plot exC2Facts "A" ["P1", "P2", "P3"] ∧
    (PlotRow.mk "S1" 120 110 (some (700/3)) (ZVal.fin 10 (700/3))).peer_median
      = medianQ (scenarioVals (df_peers exC2Facts ["P1", "P2", "P3"]) "S1") :=
  ⟨by with_unfolding_all decide,
   (C2_peer_stats_formula_and_example.1 exC2Facts "A" ["P1", "P2", "P3"]
     (PlotRow.mk "S1" 120 110 (some (700/3)) (ZVal.fin 10 (700/3)))
     (by with_unfolding_all decide)).1⟩

end StressApp
